import Mathlib

/-!
Shallow embedding of the market-pricing core of the prix-cartes repository,
with theorems settling the frozen claims about its specification.

Conventions of the embedding:
- Python floats are modelled by rationals (ℚ); `math.log` (used only inside
  the risk buffer) is not rational, so it is passed as an explicit function
  parameter and every theorem holds for an arbitrary such function.
- Python `None` becomes `Option`; Python truthiness tests on numbers
  (`if x:`) are translated as `x` present and nonzero.
- `numpy.std` and the coefficient of variation are modelled by their squares
  (variance, cv squared), which stay rational and determine the originals
  uniquely since both are nonnegative.
- Datetimes are integer timestamps in seconds; `timedelta.days` is floor
  division by 86400.
- The quota-exceeded marketplace signal (`EbayRateLimitError`) is imported by
  src/batch/runner.py from src/ebay/client.py but its definition and raise
  site are absent from the sources provided; following the spec (sections 4.1
  and 7) it is modelled as a distinct signal that aborts the surrounding run,
  escaping the collector's handler for ordinary exceptions.
-/

/-- models.py AnchorSource: source of the anchor price. -/
inductive AnchorSource
  | ebayActive
  | cardmarketFallback
  | lastKnown
  deriving DecidableEq, Repr

/-- models.py Variant: card variants. -/
inductive Variant
  | normal
  | reverse
  | holo
  | firstEd
  deriving DecidableEq, Repr

/-- config.py GuardrailsConfig (defaults from the source). -/
structure GuardrailsConfig where
  mismatchUpper : ℚ := 2.5
  mismatchLower : ℚ := 0.4
  dispersionBad : ℚ := 4.0
  deriving DecidableEq

def defaultGuardrailsConfig : GuardrailsConfig := {}

/-- config.py PricingConfig (defaults from the source). -/
structure PricingConfig where
  minCardValueEur : ℚ := 3.00
  marginTarget : ℚ := 0.27
  feesRate : ℚ := 0.11
  fixedCostsEur : ℚ := 0.50
  riskBase : ℚ := 0.02
  riskK1Dispersion : ℚ := 0.02
  riskK2Supply : ℚ := 0.01
  riskK3LowSample : ℚ := 0.05
  riskK4Fallback : ℚ := 0.03
  minBuyPrice : ℚ := 0.50
  maxBuyPrice : ℚ := 10000.00
  roundingStep : ℚ := 0.10
  coefNeuf : ℚ := 1.00
  coefBon : ℚ := 0.60
  coefCorrect : ℚ := 0.30
  deriving DecidableEq

def defaultPricingConfig : PricingConfig := {}

/-- config.py EbayConfig: the fields the pricing core reads. -/
structure EbayConfig where
  sampleLimit : ℕ := 50
  minSampleSize : ℕ := 1
  trimBottomPct : ℚ := 0.05
  trimTopPct : ℚ := 0.05
  dailyLimit : ℕ := 5000
  deriving DecidableEq

def defaultEbayConfig : EbayConfig := {}

/-- guardrails.py GuardrailResult. Reasons are an enumeration of the four
mismatch messages the source formats. -/
inductive MismatchReason
  | noEbayAnchor
  | anchorTooHigh
  | anchorTooLow
  | dispersionTooHigh
  deriving DecidableEq, Repr

/-- guardrails.py GuardrailResult dataclass (same field defaults). -/
structure GuardrailResult where
  isMismatch : Bool := false
  mismatchReason : Option MismatchReason := none
  originalAnchor : Option ℚ := none
  originalSource : AnchorSource := .ebayActive
  finalAnchor : Option ℚ := none
  finalSource : AnchorSource := .ebayActive
  cardmarketValue : Option ℚ := none
  confidencePenalty : ℤ := 0
  deriving DecidableEq

/-- Python test `ebay_anchor is None or ebay_anchor <= 0` from
PriceGuardrails.check. -/
def anchorAbsent : Option ℚ → Bool
  | none => true
  | some a => decide (a ≤ 0)

/-- guardrails.py PriceGuardrails.check, with the card reduced to its
`cm_max` reference value (max of trend and avg30, possibly absent). The
decision order mirrors the source exactly. -/
def guardrailsCheck (cfg : GuardrailsConfig) (cmMax : Option ℚ)
    (ebayAnchor : Option ℚ) (dispersion : Option ℚ) : GuardrailResult :=
  let result : GuardrailResult :=
    { originalAnchor := ebayAnchor
      originalSource := .ebayActive
      cardmarketValue := cmMax }
  if anchorAbsent ebayAnchor then
    -- no eBay anchor: fallback only when a positive reference exists
    match cmMax with
    | some cm =>
        if 0 < cm then
          { result with
            isMismatch := true
            mismatchReason := some .noEbayAnchor
            finalAnchor := some cm
            finalSource := .cardmarketFallback
            confidencePenalty := 20 }
        else result
    | none => result
  else
    let a := ebayAnchor.getD 0
    match cmMax with
    | none => { result with finalAnchor := some a, finalSource := .ebayActive }
    | some cm =>
        if cm ≤ 0 then
          { result with finalAnchor := some a, finalSource := .ebayActive }
        else if cfg.mismatchUpper * cm < a then
          { result with
            isMismatch := true
            mismatchReason := some .anchorTooHigh
            finalAnchor := some cm
            finalSource := .cardmarketFallback
            confidencePenalty := 15 }
        else if a < cfg.mismatchLower * cm then
          { result with
            isMismatch := true
            mismatchReason := some .anchorTooLow
            finalAnchor := some cm
            finalSource := .cardmarketFallback
            confidencePenalty := 15 }
        else
          match dispersion with
          | some d =>
              if cfg.dispersionBad < d then
                { result with
                  isMismatch := true
                  mismatchReason := some .dispersionTooHigh
                  finalAnchor := some cm
                  finalSource := .cardmarketFallback
                  confidencePenalty := 10 }
              else
                { result with finalAnchor := some a, finalSource := .ebayActive }
          | none => { result with finalAnchor := some a, finalSource := .ebayActive }

/-- Python round-half-to-even (`round`) on a rational, to an integer. -/
def roundHalfEven (q : ℚ) : ℤ :=
  if Int.fract q < 1/2 then ⌊q⌋
  else if 1/2 < Int.fract q then ⌊q⌋ + 1
  else if ⌊q⌋ % 2 = 0 then ⌊q⌋ else ⌊q⌋ + 1

/-- Python `round(value, 2)`. -/
def pyRound2 (q : ℚ) : ℚ := (roundHalfEven (q * 100) : ℚ) / 100

/-- calculator.py PriceCalculator._clamp_and_round. -/
def clampAndRound (cfg : PricingConfig) (value : ℚ) : ℚ :=
  let v1 := max value cfg.minBuyPrice
  let v2 := min v1 cfg.maxBuyPrice
  let v3 := if 0 < cfg.roundingStep
    then (roundHalfEven (v2 / cfg.roundingStep) : ℚ) * cfg.roundingStep
    else v2
  pyRound2 v3

/-- calculator.py RiskFactors dataclass. -/
structure RiskFactors where
  base : ℚ := 0
  dispersionPenalty : ℚ := 0
  supplyPenalty : ℚ := 0
  lowSamplePenalty : ℚ := 0
  fallbackPenalty : ℚ := 0
  consensusAdjustment : ℚ := 0
  ageAdjustment : ℚ := 0
  total : ℚ := 0
  deriving DecidableEq

/-- calculator.py PriceCalculator.calculate_risk. `log` stands for `math.log`
(irrational, hence a parameter); `minSample` is the `min_sample_size` the
source reads from the global eBay config. -/
def calculateRisk (cfg : PricingConfig) (minSample : ℕ) (log : ℚ → ℚ)
    (dispersion : Option ℚ) (activeCount : Option ℕ) (sampleSize : Option ℕ)
    (anchorSource : AnchorSource) (ageMedianDays : Option ℚ)
    (consensusScore : Option ℚ) : RiskFactors :=
  let dispersionPenalty : ℚ :=
    match dispersion with
    | some d => if 1 < d then cfg.riskK1Dispersion * min (max (log d) 0) 2 else 0
    | none => 0
  let supplyPenalty : ℚ :=
    match activeCount with
    | some n => if 0 < n then cfg.riskK2Supply * min (max (log (1 + (n : ℚ) / 1000)) 0) 2 else 0
    | none => 0
  let lowSamplePenalty : ℚ :=
    match sampleSize with
    | some s => if s < minSample then cfg.riskK3LowSample else 0
    | none => 0
  let fallbackPenalty : ℚ :=
    match anchorSource with
    | .cardmarketFallback => cfg.riskK4Fallback
    | .lastKnown => cfg.riskK4Fallback * 1.5
    | .ebayActive => 0
  let consensusAdjustment : ℚ :=
    match consensusScore with
    | some c => if 80 ≤ c then -0.02 else if 60 ≤ c then 0 else if 40 ≤ c then 0.03 else 0.05
    | none => 0
  let ageAdjustment : ℚ :=
    match ageMedianDays with
    | some a => if 60 < a then 0.05 else if 30 < a then 0.03 else if 14 < a then 0.01 else 0
    | none => 0
  { base := cfg.riskBase
    dispersionPenalty := dispersionPenalty
    supplyPenalty := supplyPenalty
    lowSamplePenalty := lowSamplePenalty
    fallbackPenalty := fallbackPenalty
    consensusAdjustment := consensusAdjustment
    ageAdjustment := ageAdjustment
    total := cfg.riskBase + dispersionPenalty + supplyPenalty + lowSamplePenalty
      + fallbackPenalty + consensusAdjustment + ageAdjustment }

/-- calculator.py PriceCalculation dataclass. -/
structure PriceCalculation where
  anchorPrice : ℚ
  feesRate : ℚ
  marginTarget : ℚ
  riskTotal : ℚ
  fixedCosts : ℚ
  buyBase : ℚ
  buyNeuf : ℚ
  buyBon : ℚ
  buyCorrect : ℚ
  riskFactors : RiskFactors
  deriving DecidableEq

/-- calculator.py PriceCalculator.calculate. -/
def priceCalculate (cfg : PricingConfig) (minSample : ℕ) (log : ℚ → ℚ)
    (anchorPrice : ℚ) (dispersion : Option ℚ) (activeCount : Option ℕ)
    (sampleSize : Option ℕ) (anchorSource : AnchorSource)
    (ageMedianDays : Option ℚ) (consensusScore : Option ℚ) : PriceCalculation :=
  let riskFactors := calculateRisk cfg minSample log dispersion activeCount
    sampleSize anchorSource ageMedianDays consensusScore
  let multiplier := 1 - cfg.feesRate - cfg.marginTarget - riskFactors.total
  let buyBase := clampAndRound cfg (anchorPrice * multiplier - cfg.fixedCostsEur)
  let buyNeuf := clampAndRound cfg (buyBase * cfg.coefNeuf)
  let buyBon := clampAndRound cfg (buyBase * cfg.coefBon)
  let buyCorrect := clampAndRound cfg (buyBase * cfg.coefCorrect)
  { anchorPrice := anchorPrice
    feesRate := cfg.feesRate
    marginTarget := cfg.marginTarget
    riskTotal := riskFactors.total
    fixedCosts := cfg.fixedCostsEur
    buyBase := buyBase
    buyNeuf := buyNeuf
    buyBon := buyBon
    buyCorrect := buyCorrect
    riskFactors := riskFactors }

/-- confidence.py ConfidenceFactors (details dict omitted: diagnostics only). -/
structure ConfidenceFactors where
  sampleSizeScore : ℤ := 0
  dispersionScore : ℤ := 0
  cardmarketAvailableScore : ℤ := 0
  sourceScore : ℤ := 0
  stabilityScore : ℤ := 0
  total : ℤ := 0
  deriving DecidableEq

/-- confidence.py ConfidenceScorer.WEIGHT_SAMPLE_SIZE. -/
def weightSampleSize : ℤ := 30

/-- confidence.py ConfidenceScorer.WEIGHT_DISPERSION. -/
def weightDispersion : ℤ := 25

/-- confidence.py ConfidenceScorer.WEIGHT_CARDMARKET. -/
def weightCardmarket : ℤ := 15

/-- confidence.py ConfidenceScorer.WEIGHT_SOURCE. -/
def weightSource : ℤ := 20

/-- confidence.py ConfidenceScorer.WEIGHT_STABILITY. -/
def weightStability : ℤ := 10

/-- Python `int(x)` for the nonnegative float products used by the scorer:
truncation, which agrees with the floor of the exact rational value on every
product the scorer forms. -/
def pyInt (q : ℚ) : ℤ := ⌊q⌋

/-- confidence.py ConfidenceScorer._score_sample_size. Sample sizes are list
lengths in the source, hence naturals. -/
def scoreSampleSize (sampleSize : Option ℕ) : ℤ :=
  match sampleSize with
  | none => 0
  | some s =>
    if s = 0 then 0
    else if s = 1 then pyInt ((weightSampleSize : ℚ) * 0.5)
    else if s < 5 then pyInt ((weightSampleSize : ℚ) * 0.6)
    else if s < 10 then pyInt ((weightSampleSize : ℚ) * 0.7)
    else if s < 20 then pyInt ((weightSampleSize : ℚ) * 0.8)
    else if s < 30 then pyInt ((weightSampleSize : ℚ) * 0.9)
    else weightSampleSize

/-- confidence.py ConfidenceScorer._score_dispersion. -/
def scoreDispersion (dispersion : Option ℚ) : ℤ :=
  match dispersion with
  | none => weightDispersion / 2
  | some d =>
    if d ≤ 1.5 then weightDispersion
    else if d ≤ 2.0 then pyInt ((weightDispersion : ℚ) * 0.9)
    else if d ≤ 3.0 then pyInt ((weightDispersion : ℚ) * 0.7)
    else if d ≤ 4.0 then pyInt ((weightDispersion : ℚ) * 0.5)
    else pyInt ((weightDispersion : ℚ) * 0.2)

/-- confidence.py ConfidenceScorer._score_source. -/
def scoreSource (source : AnchorSource) : ℤ :=
  match source with
  | .ebayActive => weightSource
  | .cardmarketFallback => pyInt ((weightSource : ℚ) * 0.6)
  | .lastKnown => pyInt ((weightSource : ℚ) * 0.3)

/-- confidence.py ConfidenceScorer._calculate_variation. -/
def calculateVariation (previous current : Option ℚ) : Option ℚ :=
  match previous, current with
  | some p, some c => if p ≤ 0 then none else some (|(c - p) / p| * 100)
  | _, _ => none

/-- confidence.py ConfidenceScorer._score_stability. -/
def scoreStability (previous current : Option ℚ) : ℤ :=
  match previous, current with
  | some p, some c =>
    (match calculateVariation (some p) (some c) with
     | none => weightStability / 2
     | some v =>
       if v ≤ 10 then weightStability
       else if v ≤ 20 then pyInt ((weightStability : ℚ) * 0.8)
       else if v ≤ 30 then pyInt ((weightStability : ℚ) * 0.6)
       else if v ≤ 50 then pyInt ((weightStability : ℚ) * 0.4)
       else pyInt ((weightStability : ℚ) * 0.1))
  | _, _ => weightStability / 2

/-- confidence.py ConfidenceScorer.calculate: the five sub-scores and their
sum. -/
def confCalculate (sampleSize : Option ℕ) (dispersion : Option ℚ)
    (hasCardmarket : Bool) (anchorSource : AnchorSource)
    (previousAnchor currentAnchor : Option ℚ) : ConfidenceFactors :=
  let s1 := scoreSampleSize sampleSize
  let s2 := scoreDispersion dispersion
  let s3 := if hasCardmarket then weightCardmarket else 0
  let s4 := scoreSource anchorSource
  let s5 := scoreStability previousAnchor currentAnchor
  { sampleSizeScore := s1
    dispersionScore := s2
    cardmarketAvailableScore := s3
    sourceScore := s4
    stabilityScore := s5
    total := s1 + s2 + s3 + s4 + s5 }

/-- client.py EbayItem, reduced to the fields the pricing pipeline reads.
`listingDate` is the parsed listing timestamp in seconds (an integer time
coordinate); `none` covers both an absent and an unparseable date, which the
source skips alike. -/
structure EbayItem where
  itemId : String := ""
  title : String := ""
  price : ℚ := 0
  currency : String := "EUR"
  shippingCost : Option ℚ := none
  listingDate : Option ℤ := none
  deriving DecidableEq

/-- client.py EbayItem.effective_price: price plus shipping when present. -/
def effectivePrice (item : EbayItem) : ℚ :=
  match item.shippingCost with
  | some s => item.price + s
  | none => item.price

/-- worker.py EbayWorker._convert_to_eur. The fixed-rate table is a
parameter; Python's truthiness test `if rate:` keeps the amount unchanged
when the looked-up rate is absent or zero. -/
def convertToEur (fxRates : String → Option ℚ) (amount : ℚ) (currency : String) : ℚ :=
  if currency = "EUR" then amount
  else
    match fxRates currency with
    | some rate => if rate = 0 then amount else amount * rate
    | none => amount

/-- The worker's default `_fx_rates` table. -/
def defaultFxRates : String → Option ℚ := fun c =>
  if c = "EUR" then some 1.0
  else if c = "USD" then some 0.92
  else if c = "GBP" then some 1.17
  else none

/-- worker.py EbayWorker._normalize_prices: base price only (no shipping),
converted to EUR, nonpositive results dropped, order preserved. -/
def normalizePrices (fxRates : String → Option ℚ) (items : List EbayItem) : List ℚ :=
  items.filterMap fun item =>
    let priceEur := convertToEur fxRates item.price item.currency
    if 0 < priceEur then some priceEur else none

/-- numpy.percentile with the default linear-interpolation method, over an
already sorted nonempty list (the source always passes the trimmed sorted
sample). -/
def npPercentile (arr : List ℚ) (q : ℚ) : ℚ :=
  let n := arr.length
  let pos := q / 100 * ((n : ℚ) - 1)
  let k := (⌊pos⌋).toNat
  let lo := arr.getD k 0
  let hi := arr.getD (k + 1) lo
  lo + (pos - (⌊pos⌋ : ℚ)) * (hi - lo)

/-- worker.py PriceStats dataclass. `stdSq` and `cvSq` are the squares of the
source's `std` (numpy population standard deviation) and `cv` (std divided by
mean), see the file header. `removedCount` is a Python int that the source
computes as a difference, hence ℤ. -/
structure PriceStats where
  sampleSize : ℕ := 0
  p20 : Option ℚ := none
  p50 : Option ℚ := none
  p80 : Option ℚ := none
  dispersion : Option ℚ := none
  mean : Option ℚ := none
  stdSq : Option ℚ := none
  minPrice : Option ℚ := none
  maxPrice : Option ℚ := none
  rawCount : ℕ := 0
  removedCount : ℤ := 0
  p10 : Option ℚ := none
  p90 : Option ℚ := none
  iqr : Option ℚ := none
  cvSq : Option ℚ := none
  ageMedianDays : Option ℚ := none
  pctRecent7d : Option ℚ := none
  pctOld30d : Option ℚ := none
  consensusScore : Option ℚ := none
  deriving DecidableEq

/-- The per-listing ages in days collected by
worker.py EbayWorker._calculate_temporal_stats: for each item with a parsed
listing date, `(now - listing_dt).days` kept when nonnegative
(timedelta.days is floor division of the second difference by 86400). -/
def agesOf (items : List EbayItem) (now : ℤ) : List ℤ :=
  items.filterMap fun item =>
    match item.listingDate with
    | some t =>
        let ageDays := Int.fdiv (now - t) 86400
        if 0 ≤ ageDays then some ageDays else none
    | none => none

/-- worker.py EbayWorker._calculate_temporal_stats: median listing age and
the shares of listings younger than 7 days and older than 30 days. Mutation
of the stats record is modelled by returning the updated record. -/
def calcTemporalStats (stats : PriceStats) (items : List EbayItem) (now : ℤ) : PriceStats :=
  let ages := agesOf items now
  if ages.isEmpty then stats
  else
    let agesSorted := (ages.map fun a => (a : ℚ)).insertionSort (fun a b => a ≤ b)
    { stats with
      ageMedianDays := some (npPercentile agesSorted 50)
      pctRecent7d := some (((ages.filter fun a => a < 7).length : ℚ) / (ages.length : ℚ) * 100)
      pctOld30d := some (((ages.filter fun a => 30 < a).length : ℚ) / (ages.length : ℚ) * 100) }

/-- The sorted, tail-trimmed sample of worker.py EbayWorker._calculate_stats:
sort, then drop the bottom and top configured fractions (Python slice
sorted_prices[trim_bottom : n - trim_top if trim_top > 0 else n], applied
only when the two trims leave something). -/
def trimmedOf (cfg : EbayConfig) (prices : List ℚ) : List ℚ :=
  let sortedPrices := prices.insertionSort (fun a b => a ≤ b)
  let n := sortedPrices.length
  let trimBottom := (⌊(n : ℚ) * cfg.trimBottomPct⌋).toNat
  let trimTop := (⌊(n : ℚ) * cfg.trimTopPct⌋).toNat
  if trimBottom + trimTop < n then
    (sortedPrices.take (if 0 < trimTop then n - trimTop else n)).drop trimBottom
  else sortedPrices

/-- worker.py EbayWorker._calculate_stats without its final temporal pass:
trimming, percentiles, dispersion, mean and variance, extremes, consensus,
with the source's two early returns (no prices, empty trimmed sample). -/
def statsCore (cfg : EbayConfig) (prices : List ℚ) (rawCount : ℕ) : PriceStats :=
  if prices.isEmpty then { rawCount := rawCount }
  else
    let trimmed := trimmedOf cfg prices
    let removedCount : ℤ := (rawCount : ℤ) - (trimmed.length : ℤ)
    let sampleSize := trimmed.length
    if trimmed.isEmpty then
      { rawCount := rawCount, removedCount := removedCount, sampleSize := sampleSize }
    else
      let p20 := npPercentile trimmed 20
      let p50 := npPercentile trimmed 50
      let p80 := npPercentile trimmed 80
      let p10 := npPercentile trimmed 10
      let p90 := npPercentile trimmed 90
      let p25 := npPercentile trimmed 25
      let p75 := npPercentile trimmed 75
      let dispersion := if p20 ≠ 0 ∧ 0 < p20 then some (p80 / p20) else none
      let mean := trimmed.sum / (sampleSize : ℚ)
      let stdSq := ((trimmed.map fun x => (x - mean) * (x - mean)).sum) / (sampleSize : ℚ)
      let minPrice := trimmed.getD 0 0
      let maxPrice := trimmed.getLastD 0
      let cvSq := if mean ≠ 0 ∧ 0 < mean then some (stdSq / (mean * mean)) else none
      let consensusScore :=
        if p50 ≠ 0 then
          let lowerBound := p50 * 0.8
          let upperBound := p50 * 1.2
          let inRange := (trimmed.filter fun p => decide (lowerBound ≤ p) && decide (p ≤ upperBound)).length
          some ((inRange : ℚ) / (trimmed.length : ℚ) * 100)
        else none
      { sampleSize := sampleSize
        p20 := some p20
        p50 := some p50
        p80 := some p80
        dispersion := dispersion
        mean := some mean
        stdSq := some stdSq
        minPrice := some minPrice
        maxPrice := some maxPrice
        rawCount := rawCount
        removedCount := removedCount
        p10 := some p10
        p90 := some p90
        iqr := some (p75 - p25)
        cvSq := cvSq
        consensusScore := consensusScore }

/-- worker.py EbayWorker._calculate_stats: the core statistics, then, on the
branch that did not return early and when a nonempty item list was supplied
(Python `if items:`), the temporal statistics, which read the current clock
`now`. -/
def calcStats (cfg : EbayConfig) (prices : List ℚ) (rawCount : ℕ)
    (items : Option (List EbayItem)) (now : ℤ) : PriceStats :=
  let base := statsCore cfg prices rawCount
  if prices.isEmpty then base
  else if (trimmedOf cfg prices).isEmpty then base
  else
    match items with
    | some its => if its.isEmpty then base else calcTemporalStats base its now
    | none => base

/-- The exceptions the eBay client can raise into the worker. The quota
exceeded error (HTTP 429) is EbayRateLimitError, whose definition is absent
from the provided sources (runner.py imports it from client.py); per the
spec it is a distinct, non-retryable signal. The message carried is the
Python `str(e)`. -/
inductive EbayError
  | rateLimit (msg : String)
  | apiError (msg : String)
  | authError (msg : String)
  deriving DecidableEq

/-- Python `str(e)` for an eBay exception. -/
def EbayError.message : EbayError → String
  | .rateLimit msg => msg
  | .apiError msg => msg
  | .authError msg => msg

/-- client.py EbaySearchResult, reduced to the fields the worker reads. -/
structure EbaySearchResult where
  total : ℕ := 0
  items : List EbayItem := []
  warnings : List String := []
  deriving DecidableEq

/-- worker.py CollectionResult dataclass. -/
structure CollectionResult where
  cardId : ℕ
  success : Bool := false
  activeCount : ℕ := 0
  stats : Option PriceStats := none
  anchorPrice : Option ℚ := none
  anchorSource : AnchorSource := .ebayActive
  error : Option String := none
  queryUsed : Option String := none
  warnings : List String := []
  items : List EbayItem := []
  reverseStats : Option PriceStats := none
  reverseItems : List EbayItem := []
  deriving DecidableEq

/-- models.py Card, reduced to what collect_for_card reads directly. The
search-filter attributes (variant flags, card number, promo set) only shape
the search call, which is modelled by its outcome. -/
structure CardM where
  id : ℕ
  effectiveQuery : Option String := none
  variant : Variant := .normal
  cmTrend : Option ℚ := none
  cmAvg30 : Option ℚ := none
  deriving DecidableEq

/-- models.py Card.cm_max: max of trend and avg30 over the present values. -/
def cmMaxOf (card : CardM) : Option ℚ :=
  match card.cmTrend, card.cmAvg30 with
  | some t, some a => some (max t a)
  | some t, none => some t
  | none, some a => some a
  | none, none => none

/-- worker.py EbayWorker._is_reverse_item: the lowercased title contains the
keyword "reverse". -/
def isReverseItem (item : EbayItem) : Bool :=
  (item.title.toLower.splitOn "reverse").length ≠ 1

/-- worker.py EbayWorker.collect_for_card, body of the try block after a
successful search: reverse/normal splitting, the empty and undersized-sample
failure returns, statistics and the p20 anchor. -/
def collectFromSearch (cfg : EbayConfig) (fxRates : String → Option ℚ)
    (card : CardM) (result1 : CollectionResult)
    (searchResult : EbaySearchResult) (now : ℤ) : CollectionResult :=
  let isReverse := card.variant = Variant.reverse
  let result2 :=
    { result1 with
      activeCount := searchResult.total
      warnings := searchResult.warnings }
  -- split normal/reverse items unless the card itself is REVERSE
  let normalItems :=
    if isReverse then searchResult.items
    else searchResult.items.filter fun item => ¬ isReverseItem item
  let reverseItems0 :=
    if isReverse then []
    else searchResult.items.filter fun item => isReverseItem item
  let reverseStats0 : Option PriceStats :=
    if ¬ reverseItems0.isEmpty then
      let reversePrices := normalizePrices fxRates reverseItems0
      if 1 ≤ reversePrices.length then
        some (calcStats cfg reversePrices reverseItems0.length (some reverseItems0) now)
      else none
    else none
  -- no normal items but some reverse: use the reverse items as main items
  let swap := normalItems.isEmpty ∧ ¬ reverseItems0.isEmpty
  let items := if swap then reverseItems0 else normalItems
  let reverseItems := if swap then [] else reverseItems0
  let reverseStats := if swap then none else reverseStats0
  let warnings :=
    if swap then result2.warnings ++ ["Uniquement des annonces reverse trouvees"]
    else result2.warnings
  let result3 :=
    { result2 with
      items := items
      reverseItems := reverseItems
      reverseStats := reverseStats
      warnings := warnings }
  if items.isEmpty then
    { result3 with success := false, error := some "No items found" }
  else
    let prices := normalizePrices fxRates items
    if prices.length < cfg.minSampleSize then
      { result3 with
        success := false
        error := some ("No valid prices after normalization ("
          ++ toString prices.length ++ " items)")
        stats := some { sampleSize := prices.length, rawCount := items.length } }
    else
      let stats := calcStats cfg prices items.length (some items) now
      let result4 := { result3 with stats := some stats }
      let result5 :=
        match stats.p20 with
        | some p => { result4 with anchorPrice := some p, anchorSource := .ebayActive }
        | none => result4
      { result5 with success := true }

/-- worker.py EbayWorker.collect_for_card. The marketplace search
(`client.search_all`) is modelled by its outcome `searchOutcome`: either a
search result or a raised exception. The source wraps the body in
`except Exception`, turning any ordinary exception into a failed
CollectionResult; the quota-exceeded signal is modelled (from the spec, its
class definition being absent from the sources) as escaping that handler,
so the function returns `Except.error ()` exactly then. -/
def collectForCard (cfg : EbayConfig) (fxRates : String → Option ℚ)
    (card : CardM) (searchOutcome : Except EbayError EbaySearchResult)
    (now : ℤ) : Except Unit CollectionResult :=
  let result0 : CollectionResult := { cardId := card.id }
  match card.effectiveQuery with
  | none => .ok { result0 with success := false, error := some "No eBay query defined" }
  | some query =>
    let result1 := { result0 with queryUsed := some query }
    match searchOutcome with
    | .error e =>
        match e with
        | .rateLimit _ => .error ()
        | _ => .ok { result1 with success := false, error := some e.message }
    | .ok searchResult => .ok (collectFromSearch cfg fxRates card result1 searchResult now)

/-- runner.py: what processing one card with BatchRunner._process_card can
come to, seen from the run loop. `success`, `procSkipped` and `procFailed`
are the three return values; `rateLimitHit` models an EbayRateLimitError
reaching the loop (collectForCard returning `Except.error ()`), and
`unexpectedExn` any other exception escaping _process_card. -/
inductive ProcOutcome
  | success
  | procSkipped
  | procFailed (err : String)
  | rateLimitHit
  | unexpectedExn (msg : String)
  deriving DecidableEq

/-- One worklist entry for the run loop: the card's id and set, the number of
external API calls its processing makes (counted through the on_api_call
callback), and the outcome its processing comes to. -/
structure WorkCard where
  id : ℕ
  setId : String
  calls : ℕ
  outcome : ProcOutcome
  deriving DecidableEq

/-- The per-card statuses recorded in card_results. -/
inductive CardStatus
  | success
  | failed
  | skipped
  deriving DecidableEq, Repr

/-- runner.py MAX_SET_FAILURES (hard-coded 10 in BatchRunner.run). -/
def maxSetFailures : ℕ := 10

/-- The run's budget inputs: the eBay counter observed at run start and the
configured daily limit (Settings "daily_api_limit"). -/
structure RunConfig where
  startingEbayCount : ℕ
  dailyLimit : ℕ
  deriving DecidableEq

/-- The mutable state of BatchRunner.run: BatchStats counters, the per-set
failure counters, the skipped-set set, the session call counter, and the
card_results list. `collectorInvoked` records the cards for which
_process_card (and with it the Collector) was invoked; `halted` models the
loop having executed `break`. -/
structure RunState where
  succeeded : ℕ := 0
  failed : ℕ := 0
  skipped : ℕ := 0
  processed : ℕ := 0
  errors : List (ℕ × String) := []
  skippedSetsReport : List String := []
  stoppedApiLimit : Bool := false
  stoppedRateLimit : Bool := false
  setFailures : List (String × ℕ) := []
  skippedSets : List String := []
  sessionCallCount : ℕ := 0
  cardResults : List (ℕ × CardStatus × Option String) := []
  rateLimitCooldownWritten : Bool := false
  collectorInvoked : List ℕ := []
  halted : Bool := false
  deriving DecidableEq

/-- Python dict get with default 0: set_failures.get(set_id, 0). -/
def getFailures (m : List (String × ℕ)) (k : String) : ℕ :=
  match m.lookup k with
  | some v => v
  | none => 0

/-- Python dict assignment set_failures[set_id] = v. -/
def putFailures : List (String × ℕ) → String → ℕ → List (String × ℕ)
  | [], k, v => [(k, v)]
  | (k', v') :: rest, k, v =>
      if k' = k then (k, v) :: rest else (k', v') :: putFailures rest k v

/-- The source resets a set's failure counter to zero only when the key is
already present (`if card.set_id in set_failures`). -/
def resetFailuresIfPresent : List (String × ℕ) → String → List (String × ℕ)
  | [], _ => []
  | (k', v') :: rest, k =>
      if k' = k then (k, 0) :: rest else (k', v') :: resetFailuresIfPresent rest k

/-- runner.py BatchRunner.run, body of the per-card loop (the cooperative
stop flag is cleared at run start and never set in this single-run model).
Checks, in source order: the daily API budget
(starting eBay count + session calls >= daily limit), then the skipped-set
short-circuit, then _process_card with its outcome bookkeeping. A `break`
sets `halted`, which freezes the state for the remaining cards. -/
def stepCard (cfg : RunConfig) (st : RunState) (c : WorkCard) : RunState :=
  if st.halted then st
  else if cfg.dailyLimit ≤ cfg.startingEbayCount + st.sessionCallCount then
    { st with stoppedApiLimit := true, halted := true }
  else if c.setId ∈ st.skippedSets then
    { st with
      skipped := st.skipped + 1
      processed := st.processed + 1
      cardResults := st.cardResults ++ [(c.id, CardStatus.skipped, some "set ignore")] }
  else
    let st1 :=
      { st with
        collectorInvoked := st.collectorInvoked ++ [c.id]
        sessionCallCount := st.sessionCallCount + c.calls }
    match c.outcome with
    | .success =>
        { st1 with
          succeeded := st1.succeeded + 1
          setFailures := resetFailuresIfPresent st1.setFailures c.setId
          cardResults := st1.cardResults ++ [(c.id, CardStatus.success, none)]
          processed := st1.processed + 1 }
    | .procSkipped =>
        { st1 with
          skipped := st1.skipped + 1
          cardResults := st1.cardResults ++ [(c.id, CardStatus.skipped, none)]
          processed := st1.processed + 1 }
    | .procFailed err =>
        let n := getFailures st1.setFailures c.setId + 1
        let st2 := { st1 with failed := st1.failed + 1, setFailures := putFailures st1.setFailures c.setId n }
        let st3 :=
          if maxSetFailures ≤ n then
            { st2 with
              skippedSets := st2.skippedSets ++ [c.setId]
              skippedSetsReport := st2.skippedSetsReport ++ [c.setId] }
          else st2
        { st3 with
          cardResults := st3.cardResults ++ [(c.id, CardStatus.failed, some err)]
          processed := st3.processed + 1 }
    | .rateLimitHit =>
        { st1 with
          rateLimitCooldownWritten := true
          stoppedRateLimit := true
          cardResults := st1.cardResults
            ++ [(c.id, CardStatus.failed, some "Erreur 429 - Rate limit eBay")]
          halted := true }
    | .unexpectedExn msg =>
        let n := getFailures st1.setFailures c.setId + 1
        let st2 :=
          { st1 with
            failed := st1.failed + 1
            errors := st1.errors ++ [(c.id, msg)]
            setFailures := putFailures st1.setFailures c.setId n }
        let st3 :=
          if maxSetFailures ≤ n then
            { st2 with
              skippedSets := st2.skippedSets ++ [c.setId]
              skippedSetsReport := st2.skippedSetsReport ++ [c.setId] }
          else st2
        { st3 with
          cardResults := st3.cardResults ++ [(c.id, CardStatus.failed, some msg)]
          processed := st3.processed + 1 }

/-- runner.py BatchRunner.run over a worklist: the pre-loop budget check
(batch not started when the limit is already reached), then the per-card
loop. -/
def runBatch (cfg : RunConfig) (cards : List WorkCard) : RunState :=
  if cfg.dailyLimit ≤ cfg.startingEbayCount then
    { stoppedApiLimit := true, halted := true }
  else
    cards.foldl (stepCard cfg) {}

/-- Projection of PriceStats onto its non-temporal fields: the three
clock-dependent fields (age_median_days, pct_recent_7d, pct_old_30d)
blanked. -/
def clearTemporal (s : PriceStats) : PriceStats :=
  { s with ageMedianDays := none, pctRecent7d := none, pctOld30d := none }

/-- A listing list transformation that replaces each listing's shipping cost
arbitrarily (every other field untouched). -/
def setShipping (f : EbayItem → Option ℚ) (item : EbayItem) : EbayItem :=
  { item with shippingCost := f item }

section

attribute [local semireducible] Rat.ofScientific Rat.mul Rat.inv Rat.add Rat.sub

/-- Helper: the dispersion sub-score never increases when dispersion
increases. -/
theorem scoreDispersion_anti (d1 d2 : ℚ) (h : d1 ≤ d2) :
    scoreDispersion (some d2) ≤ scoreDispersion (some d1) := by
  simp only [scoreDispersion]
  split_ifs <;> first | rfl | decide | linarith

/-- Helper: the sample-size sub-score never decreases when the sample size
increases. -/
theorem scoreSampleSize_mono (s1 s2 : ℕ) (h : s1 ≤ s2) :
    scoreSampleSize (some s1) ≤ scoreSampleSize (some s2) := by
  simp only [scoreSampleSize]
  split_ifs <;> first | rfl | decide | omega

/-- Helper: the total confidence score is the sum of the five sub-scores. -/
theorem confCalculate_total (ss : Option ℕ) (d : Option ℚ) (hasCm : Bool)
    (src : AnchorSource) (p c : Option ℚ) :
    (confCalculate ss d hasCm src p c).total
      = scoreSampleSize ss + scoreDispersion d + (if hasCm then weightCardmarket else 0)
        + scoreSource src + scoreStability p c := rfl

/-- Helper: blanking the temporal fields cancels the temporal pass. -/
theorem clearTemporal_calcTemporalStats (s : PriceStats) (items : List EbayItem) (now : ℤ) :
    clearTemporal (calcTemporalStats s items now) = clearTemporal s := by
  simp only [calcTemporalStats]
  split <;> rfl

/-- Helper: the temporal pass depends on the items only through their ages. -/
theorem calcTemporalStats_congr (s : PriceStats) (its1 its2 : List EbayItem) (now : ℤ)
    (h : agesOf its1 now = agesOf its2 now) :
    calcTemporalStats s its1 now = calcTemporalStats s its2 now := by
  simp only [calcTemporalStats, h]

/-- Helper: listing ages ignore the shipping cost. -/
theorem agesOf_setShipping (f : EbayItem → Option ℚ) (items : List EbayItem) (now : ℤ) :
    agesOf (items.map (setShipping f)) now = agesOf items now := by
  unfold agesOf
  rw [List.filterMap_map]
  exact congrFun (congrArg _ (funext fun it => rfl)) items

/-- Helper: price normalization ignores the shipping cost. -/
theorem normalizePrices_setShipping (fx : String → Option ℚ) (f : EbayItem → Option ℚ)
    (items : List EbayItem) :
    normalizePrices fx (items.map (setShipping f)) = normalizePrices fx items := by
  unfold normalizePrices
  rw [List.filterMap_map]
  exact congrFun (congrArg _ (funext fun it => rfl)) items

/-- Helper: the statistics depend on the supplied item list only through its
emptiness and its ages. -/
theorem calcStats_items_congr (cfg : EbayConfig) (prices : List ℚ) (rawCount : ℕ)
    (its1 its2 : List EbayItem) (now : ℤ)
    (hemp : its1.isEmpty = its2.isEmpty)
    (hages : agesOf its1 now = agesOf its2 now) :
    calcStats cfg prices rawCount (some its1) now
      = calcStats cfg prices rawCount (some its2) now := by
  simp only [calcStats]
  by_cases hp : prices.isEmpty = true
  · simp [hp]
  · by_cases ht : (trimmedOf cfg prices).isEmpty = true
    · simp [hp, ht]
    · simp only [if_neg hp, if_neg ht]
      rw [hemp]
      by_cases h : its2.isEmpty = true
      · simp [h]
      · simp only [if_neg h]
        exact calcTemporalStats_congr _ _ _ _ hages

/-- Helper: a failed collection from a successful search always carries an
error message. -/
theorem collectFromSearch_failed_has_error (cfg : EbayConfig) (fx : String → Option ℚ)
    (card : CardM) (r1 : CollectionResult) (sr : EbaySearchResult) (now : ℤ) :
    (collectFromSearch cfg fx card r1 sr now).success = false →
    (collectFromSearch cfg fx card r1 sr now).error ≠ none := by
  simp only [collectFromSearch]
  split_ifs <;> simp

/-- Helper: once the run loop has halted, the remaining cards change
nothing. -/
theorem foldl_stepCard_halted (cfg : RunConfig) (st : RunState) (h : st.halted = true) :
    ∀ cards : List WorkCard, cards.foldl (stepCard cfg) st = st := by
  intro cards
  induction cards with
  | nil => rfl
  | cons c cs ih =>
      rw [List.foldl_cons, show stepCard cfg st c = st from by simp [stepCard, h]]
      exact ih

/-- Helper: the exact effect of one loop step on a card whose processing hits
the rate limit. -/
theorem stepCard_rateLimit (cfg : RunConfig) (st : RunState) (rl : WorkCard)
    (h1 : st.halted = false)
    (h2 : cfg.startingEbayCount + st.sessionCallCount < cfg.dailyLimit)
    (h3 : rl.setId ∉ st.skippedSets)
    (h4 : rl.outcome = ProcOutcome.rateLimitHit) :
    stepCard cfg st rl =
      { st with
        collectorInvoked := st.collectorInvoked ++ [rl.id]
        sessionCallCount := st.sessionCallCount + rl.calls
        rateLimitCooldownWritten := true
        stoppedRateLimit := true
        cardResults := st.cardResults
          ++ [(rl.id, CardStatus.failed, some "Erreur 429 - Rate limit eBay")]
        halted := true } := by
  simp only [stepCard, h1, h4]
  rw [if_neg (by simp), if_neg (by omega), if_neg h3]

/-- C1: when processing of a card raises the quota-exceeded (429) signal, the
run halts immediately with the stopped-by-rate-limit reason and the persistent
cooldown marker is written; the outcomes already recorded for earlier cards
are untouched (they remain as the prefix of card_results), and the cards after
it are never processed: no outcome is recorded for them, the success, failure
and skip counters stay frozen, and the Collector is not invoked on them. The
hypotheses state that the loop actually reaches this card: the run has not
halted, the budget check passes, and the card's set is not being skipped. -/
theorem C1_rate_limit_halts :
    ∀ (cfg : RunConfig) (st : RunState) (rl : WorkCard) (post : List WorkCard),
    st.halted = false →
    cfg.startingEbayCount + st.sessionCallCount < cfg.dailyLimit →
    rl.setId ∉ st.skippedSets →
    rl.outcome = ProcOutcome.rateLimitHit →
    ((rl :: post).foldl (stepCard cfg) st).stoppedRateLimit = true
    ∧ ((rl :: post).foldl (stepCard cfg) st).rateLimitCooldownWritten = true
    ∧ ((rl :: post).foldl (stepCard cfg) st).cardResults
        = st.cardResults ++ [(rl.id, CardStatus.failed, some "Erreur 429 - Rate limit eBay")]
    ∧ ((rl :: post).foldl (stepCard cfg) st).succeeded = st.succeeded
    ∧ ((rl :: post).foldl (stepCard cfg) st).failed = st.failed
    ∧ ((rl :: post).foldl (stepCard cfg) st).skipped = st.skipped
    ∧ ((rl :: post).foldl (stepCard cfg) st).collectorInvoked
        = st.collectorInvoked ++ [rl.id] := by
  intro cfg st rl post h1 h2 h3 h4
  rw [List.foldl_cons, stepCard_rateLimit cfg st rl h1 h2 h3 h4,
    foldl_stepCard_halted cfg _ rfl post]
  exact ⟨rfl, rfl, rfl, rfl, rfl, rfl, rfl⟩

/-- Witness for C1: a rate-limit hit on the first card of a three-card
worklist halts the run, records only that card's failure, and leaves the two
following cards unprocessed. -/
theorem C1_witness :
    (([({ id := 7, setId := "base1", calls := 1, outcome := .rateLimitHit } : WorkCard),
       { id := 8, setId := "base1", calls := 1, outcome := .success },
       { id := 9, setId := "base1", calls := 1, outcome := .success }].foldl
        (stepCard { startingEbayCount := 0, dailyLimit := 5000 }) {}).stoppedRateLimit = true)
    ∧ (([({ id := 7, setId := "base1", calls := 1, outcome := .rateLimitHit } : WorkCard),
       { id := 8, setId := "base1", calls := 1, outcome := .success },
       { id := 9, setId := "base1", calls := 1, outcome := .success }].foldl
        (stepCard { startingEbayCount := 0, dailyLimit := 5000 }) {}).cardResults
        = [(7, CardStatus.failed, some "Erreur 429 - Rate limit eBay")])
    ∧ (([({ id := 7, setId := "base1", calls := 1, outcome := .rateLimitHit } : WorkCard),
       { id := 8, setId := "base1", calls := 1, outcome := .success },
       { id := 9, setId := "base1", calls := 1, outcome := .success }].foldl
        (stepCard { startingEbayCount := 0, dailyLimit := 5000 }) {}).collectorInvoked = [7]) := by
  have h := C1_rate_limit_halts { startingEbayCount := 0, dailyLimit := 5000 } {}
    { id := 7, setId := "base1", calls := 1, outcome := .rateLimitHit }
    [{ id := 8, setId := "base1", calls := 1, outcome := .success },
     { id := 9, setId := "base1", calls := 1, outcome := .success }]
    rfl (by decide) (by decide) rfl
  exact ⟨h.1, h.2.2.1, h.2.2.2.2.2.2⟩

/-- C2: before each card the run checks whether the eBay counter observed at
run start plus the calls made this session has reached the configured daily
limit, and halts with the stopped-by-budget reason when it has, recording
nothing for the remaining cards (first conjunct, for any reachable loop
state); in particular a run with daily limit 5000, a starting counter of 4998
and three cards costing one call each processes exactly two cards
successfully and then stops with the budget reason before the third card
starts (second conjunct). -/
theorem C2_budget_halts :
    (∀ (cfg : RunConfig) (st : RunState) (c : WorkCard) (rest : List WorkCard),
      st.halted = false →
      cfg.dailyLimit ≤ cfg.startingEbayCount + st.sessionCallCount →
      ((c :: rest).foldl (stepCard cfg) st).stoppedApiLimit = true
      ∧ ((c :: rest).foldl (stepCard cfg) st).cardResults = st.cardResults
      ∧ ((c :: rest).foldl (stepCard cfg) st).collectorInvoked = st.collectorInvoked
      ∧ ((c :: rest).foldl (stepCard cfg) st).processed = st.processed
      ∧ ((c :: rest).foldl (stepCard cfg) st).succeeded = st.succeeded)
    ∧ ((runBatch { startingEbayCount := 4998, dailyLimit := 5000 }
          [{ id := 1, setId := "base1", calls := 1, outcome := .success },
           { id := 2, setId := "base1", calls := 1, outcome := .success },
           { id := 3, setId := "base1", calls := 1, outcome := .success }]).succeeded = 2
      ∧ (runBatch { startingEbayCount := 4998, dailyLimit := 5000 }
          [{ id := 1, setId := "base1", calls := 1, outcome := .success },
           { id := 2, setId := "base1", calls := 1, outcome := .success },
           { id := 3, setId := "base1", calls := 1, outcome := .success }]).processed = 2
      ∧ (runBatch { startingEbayCount := 4998, dailyLimit := 5000 }
          [{ id := 1, setId := "base1", calls := 1, outcome := .success },
           { id := 2, setId := "base1", calls := 1, outcome := .success },
           { id := 3, setId := "base1", calls := 1, outcome := .success }]).stoppedApiLimit = true
      ∧ (runBatch { startingEbayCount := 4998, dailyLimit := 5000 }
          [{ id := 1, setId := "base1", calls := 1, outcome := .success },
           { id := 2, setId := "base1", calls := 1, outcome := .success },
           { id := 3, setId := "base1", calls := 1, outcome := .success }]).cardResults
          = [(1, CardStatus.success, none), (2, CardStatus.success, none)]
      ∧ (runBatch { startingEbayCount := 4998, dailyLimit := 5000 }
          [{ id := 1, setId := "base1", calls := 1, outcome := .success },
           { id := 2, setId := "base1", calls := 1, outcome := .success },
           { id := 3, setId := "base1", calls := 1, outcome := .success }]).collectorInvoked
          = [1, 2]) := by
  constructor
  · intro cfg st c rest h1 h2
    have hstep : stepCard cfg st c = { st with stoppedApiLimit := true, halted := true } := by
      simp only [stepCard]
      rw [if_neg (by simp [h1]), if_pos h2]
    rw [List.foldl_cons, hstep, foldl_stepCard_halted cfg _ rfl rest]
    exact ⟨rfl, rfl, rfl, rfl, rfl⟩
  · exact ⟨by decide, by decide, by decide, by decide, by decide⟩

/-- Witness for C2: the budget check fires on a concrete state whose session
counter has reached the limit and the next card is not processed. -/
theorem C2_witness :
    (({ sessionCallCount := 5000 } : RunState).halted = false
      ∧ (5000 : ℕ) ≤ 0 + ({ sessionCallCount := 5000 } : RunState).sessionCallCount)
    ∧ ((([{ id := 1, setId := "base1", calls := 1, outcome := .success }] : List WorkCard).foldl
          (stepCard { startingEbayCount := 0, dailyLimit := 5000 })
          { sessionCallCount := 5000 }).stoppedApiLimit = true
      ∧ (([{ id := 1, setId := "base1", calls := 1, outcome := .success }] : List WorkCard).foldl
          (stepCard { startingEbayCount := 0, dailyLimit := 5000 })
          { sessionCallCount := 5000 }).cardResults
          = ({ sessionCallCount := 5000 } : RunState).cardResults) := by
  have h := C2_budget_halts.1 { startingEbayCount := 0, dailyLimit := 5000 }
    { sessionCallCount := 5000 } { id := 1, setId := "base1", calls := 1, outcome := .success }
    [] rfl (by decide)
  exact ⟨⟨rfl, by decide⟩, h.1, h.2.1⟩

/-- C3 counterexample: with no anchor and no reference price, the source
leaves final_source at EBAY_ACTIVE even though no anchor existed, so
"final_source == CARDMARKET_FALLBACK iff a mismatch condition triggered or no
anchor existed" is false at the input (reference none, anchor none,
dispersion none). -/
theorem C3_counterexample :
    ¬ (((guardrailsCheck defaultGuardrailsConfig none none none).finalSource
          = AnchorSource.cardmarketFallback)
        ↔ ((guardrailsCheck defaultGuardrailsConfig none none none).isMismatch = true
            ∨ anchorAbsent none = true)) := by
  decide

/-- C3 amended: final_source == CARDMARKET_FALLBACK iff the mismatch flag is
set (the no-anchor case sets it only when a positive reference exists);
otherwise final_source == EBAY_ACTIVE, and whenever an anchor existed
(non-null and positive) final_anchor == original_anchor. -/
theorem C3_amended :
    ∀ (cfg : GuardrailsConfig) (cm a d : Option ℚ),
    ((guardrailsCheck cfg cm a d).finalSource = AnchorSource.cardmarketFallback
      ↔ (guardrailsCheck cfg cm a d).isMismatch = true)
    ∧ ((guardrailsCheck cfg cm a d).isMismatch = false →
        (guardrailsCheck cfg cm a d).finalSource = AnchorSource.ebayActive
        ∧ (anchorAbsent a = false →
            (guardrailsCheck cfg cm a d).finalAnchor
              = (guardrailsCheck cfg cm a d).originalAnchor)) := by
  intro cfg cm a d
  rcases a with _ | av <;> rcases cm with _ | cmv <;> rcases d with _ | dv <;>
    simp only [guardrailsCheck, anchorAbsent, decide_eq_true_eq] <;>
    split_ifs <;> simp_all

/-- Witness for C3: anchor 9 against reference 10 stays within the guardrail
bounds, so there is no mismatch, the source stays EBAY_ACTIVE and the anchor
is kept. -/
theorem C3_witness :
    (guardrailsCheck defaultGuardrailsConfig (some 10) (some 9) none).isMismatch = false
    ∧ (guardrailsCheck defaultGuardrailsConfig (some 10) (some 9) none).finalSource
        = AnchorSource.ebayActive
    ∧ (guardrailsCheck defaultGuardrailsConfig (some 10) (some 9) none).finalAnchor
        = (guardrailsCheck defaultGuardrailsConfig (some 10) (some 9) none).originalAnchor := by
  have h := (C3_amended defaultGuardrailsConfig (some 10) (some 9) none).2 (by decide)
  exact ⟨by decide, h.1, h.2 (by decide)⟩

/-- C4 counterexample: the upper guardrail comparison is strict
(anchor > 2.5 x reference), so anchor 25 against reference 10 with
UPPER_MULTIPLE 2.5 does not trigger a mismatch: the result keeps the eBay
anchor 25 with source EBAY_ACTIVE, contradicting the claimed mismatch with
final anchor 10 and fallback source. -/
theorem C4_counterexample :
    (guardrailsCheck defaultGuardrailsConfig (some 10) (some 25) none).isMismatch = false
    ∧ (guardrailsCheck defaultGuardrailsConfig (some 10) (some 25) none).finalAnchor = some 25
    ∧ (guardrailsCheck defaultGuardrailsConfig (some 10) (some 25) none).finalSource
        = AnchorSource.ebayActive := by
  decide

/-- C4 amended: the anchor-implausibly-high mismatch triggers exactly for
anchors strictly above UPPER_MULTIPLE x reference: any anchor strictly above
25 against reference 10 yields a mismatch with final anchor 10 and the
fallback source (at exactly 25 nothing triggers, see the counterexample). -/
theorem C4_amended :
    ∀ a : ℚ, 25 < a →
    (guardrailsCheck defaultGuardrailsConfig (some 10) (some a) none).isMismatch = true
    ∧ (guardrailsCheck defaultGuardrailsConfig (some 10) (some a) none).mismatchReason
        = some MismatchReason.anchorTooHigh
    ∧ (guardrailsCheck defaultGuardrailsConfig (some 10) (some a) none).finalAnchor = some 10
    ∧ (guardrailsCheck defaultGuardrailsConfig (some 10) (some a) none).finalSource
        = AnchorSource.cardmarketFallback := by
  intro a ha
  have h1 : ¬ (a ≤ 0) := by linarith
  have h2 : defaultGuardrailsConfig.mismatchUpper * 10 < a := by
    show (2.5 : ℚ) * 10 < a
    norm_num
    linarith
  have h3 : ¬ ((10 : ℚ) ≤ 0) := by norm_num
  simp only [guardrailsCheck, anchorAbsent, decide_eq_true_eq, Option.getD_some]
  rw [if_neg h1, if_neg h3, if_pos h2]
  exact ⟨rfl, rfl, rfl, rfl⟩

/-- Witness for C4: anchor 26 against reference 10 triggers the
anchor-implausibly-high mismatch. -/
theorem C4_witness :
    (25 : ℚ) < 26
    ∧ ((guardrailsCheck defaultGuardrailsConfig (some 10) (some 26) none).isMismatch = true
       ∧ (guardrailsCheck defaultGuardrailsConfig (some 10) (some 26) none).mismatchReason
           = some MismatchReason.anchorTooHigh
       ∧ (guardrailsCheck defaultGuardrailsConfig (some 10) (some 26) none).finalAnchor = some 10
       ∧ (guardrailsCheck defaultGuardrailsConfig (some 10) (some 26) none).finalSource
           = AnchorSource.cardmarketFallback) :=
  ⟨by norm_num, C4_amended 26 (by norm_num)⟩

set_option maxRecDepth 4000 in
/-- C5 counterexample: with the default configuration, anchor 20 and no
optional inputs, buy_bon is 6.90 (the clamped-and-rounded base 11.50 times
the coefficient 0.60, clamped and rounded again), not the
clamp-and-round of anchor x coefficient (which would be 12.00): the condition
tiers are not anchor_price x per-tier coefficient. -/
theorem C5_counterexample :
    (priceCalculate defaultPricingConfig 1 (fun _ => 0) 20 none none none
        AnchorSource.ebayActive none none).buyBon
      ≠ clampAndRound defaultPricingConfig (20 * defaultPricingConfig.coefBon) := by
  decide

/-- C5 amended: the base buy price is the clamp-and-round of
anchor x (1 - fees - margin - risk total) - fixed costs, and each of the
three condition-tier prices is the already clamped-and-rounded base price
times its fixed per-tier coefficient, independently clamped to
[min_buy_price, max_buy_price] and rounded to the configured step
(not anchor x coefficient). -/
theorem C5_amended :
    ∀ (cfg : PricingConfig) (minSample : ℕ) (log : ℚ → ℚ) (anchor : ℚ)
      (dispersion : Option ℚ) (activeCount : Option ℕ) (sampleSize : Option ℕ)
      (src : AnchorSource) (age consensus : Option ℚ),
    (priceCalculate cfg minSample log anchor dispersion activeCount sampleSize src age consensus).buyBase
      = clampAndRound cfg (anchor * (1 - cfg.feesRate - cfg.marginTarget
          - (calculateRisk cfg minSample log dispersion activeCount sampleSize src age consensus).total)
          - cfg.fixedCostsEur)
    ∧ (priceCalculate cfg minSample log anchor dispersion activeCount sampleSize src age consensus).buyNeuf
      = clampAndRound cfg
          ((priceCalculate cfg minSample log anchor dispersion activeCount sampleSize src age consensus).buyBase
            * cfg.coefNeuf)
    ∧ (priceCalculate cfg minSample log anchor dispersion activeCount sampleSize src age consensus).buyBon
      = clampAndRound cfg
          ((priceCalculate cfg minSample log anchor dispersion activeCount sampleSize src age consensus).buyBase
            * cfg.coefBon)
    ∧ (priceCalculate cfg minSample log anchor dispersion activeCount sampleSize src age consensus).buyCorrect
      = clampAndRound cfg
          ((priceCalculate cfg minSample log anchor dispersion activeCount sampleSize src age consensus).buyBase
            * cfg.coefCorrect) := by
  intro cfg minSample log anchor dispersion activeCount sampleSize src age consensus
  exact ⟨rfl, rfl, rfl, rfl⟩

/-- C6: first conjunct (for any reachable loop state): a card whose set is in
the skipped-set set is marked skipped and counted, with no Collector
invocation, no halt, and no other state change; second conjunct (concrete
scenario): with the threshold of 10, after ten consecutive failures of set A
the 11th card of set A is recorded skipped without the Collector being
invoked on it, and the run continues, successfully processing the following
card of set B; the run ends with 10 failed, 1 skipped, 1 succeeded, set A
reported as skipped, and no halt. -/
theorem C6_circuit_breaker :
    (∀ (cfg : RunConfig) (st : RunState) (c : WorkCard),
      st.halted = false →
      cfg.startingEbayCount + st.sessionCallCount < cfg.dailyLimit →
      c.setId ∈ st.skippedSets →
      stepCard cfg st c
        = { st with
            skipped := st.skipped + 1
            processed := st.processed + 1
            cardResults := st.cardResults ++ [(c.id, CardStatus.skipped, some "set ignore")] })
    ∧ (((runBatch { startingEbayCount := 0, dailyLimit := 5000 }
          (((List.range 10).map fun i =>
            { id := i + 1, setId := "A", calls := 0, outcome := .procFailed "No items found" })
          ++ [{ id := 11, setId := "A", calls := 0, outcome := .success },
              { id := 12, setId := "B", calls := 0, outcome := .success }])).cardResults.getD 10
            (0, CardStatus.success, none))
          = (11, CardStatus.skipped, some "set ignore")
      ∧ (11 : ℕ) ∉ (runBatch { startingEbayCount := 0, dailyLimit := 5000 }
          (((List.range 10).map fun i =>
            { id := i + 1, setId := "A", calls := 0, outcome := .procFailed "No items found" })
          ++ [{ id := 11, setId := "A", calls := 0, outcome := .success },
              { id := 12, setId := "B", calls := 0, outcome := .success }])).collectorInvoked
      ∧ ((runBatch { startingEbayCount := 0, dailyLimit := 5000 }
          (((List.range 10).map fun i =>
            { id := i + 1, setId := "A", calls := 0, outcome := .procFailed "No items found" })
          ++ [{ id := 11, setId := "A", calls := 0, outcome := .success },
              { id := 12, setId := "B", calls := 0, outcome := .success }])).cardResults.getD 11
            (0, CardStatus.success, none))
          = (12, CardStatus.success, none)
      ∧ (runBatch { startingEbayCount := 0, dailyLimit := 5000 }
          (((List.range 10).map fun i =>
            { id := i + 1, setId := "A", calls := 0, outcome := .procFailed "No items found" })
          ++ [{ id := 11, setId := "A", calls := 0, outcome := .success },
              { id := 12, setId := "B", calls := 0, outcome := .success }])).succeeded = 1
      ∧ (runBatch { startingEbayCount := 0, dailyLimit := 5000 }
          (((List.range 10).map fun i =>
            { id := i + 1, setId := "A", calls := 0, outcome := .procFailed "No items found" })
          ++ [{ id := 11, setId := "A", calls := 0, outcome := .success },
              { id := 12, setId := "B", calls := 0, outcome := .success }])).failed = 10
      ∧ (runBatch { startingEbayCount := 0, dailyLimit := 5000 }
          (((List.range 10).map fun i =>
            { id := i + 1, setId := "A", calls := 0, outcome := .procFailed "No items found" })
          ++ [{ id := 11, setId := "A", calls := 0, outcome := .success },
              { id := 12, setId := "B", calls := 0, outcome := .success }])).skipped = 1
      ∧ "A" ∈ (runBatch { startingEbayCount := 0, dailyLimit := 5000 }
          (((List.range 10).map fun i =>
            { id := i + 1, setId := "A", calls := 0, outcome := .procFailed "No items found" })
          ++ [{ id := 11, setId := "A", calls := 0, outcome := .success },
              { id := 12, setId := "B", calls := 0, outcome := .success }])).skippedSetsReport
      ∧ (runBatch { startingEbayCount := 0, dailyLimit := 5000 }
          (((List.range 10).map fun i =>
            { id := i + 1, setId := "A", calls := 0, outcome := .procFailed "No items found" })
          ++ [{ id := 11, setId := "A", calls := 0, outcome := .success },
              { id := 12, setId := "B", calls := 0, outcome := .success }])).halted = false) := by
  constructor
  · intro cfg st c h1 h2 h3
    simp only [stepCard]
    rw [if_neg (by simp [h1]), if_neg (by omega), if_pos h3]
  · exact ⟨by decide, by decide, by decide, by decide, by decide, by decide, by decide, by decide⟩

/-- Witness for C6: the skip branch fires on a concrete state whose
skipped-set set contains the card's set. -/
theorem C6_witness :
    (({ skippedSets := ["A"] } : RunState).halted = false
      ∧ 0 + ({ skippedSets := ["A"] } : RunState).sessionCallCount < 5000
      ∧ "A" ∈ ({ skippedSets := ["A"] } : RunState).skippedSets)
    ∧ stepCard { startingEbayCount := 0, dailyLimit := 5000 } { skippedSets := ["A"] }
        { id := 11, setId := "A", calls := 0, outcome := .success }
      = { ({ skippedSets := ["A"] } : RunState) with
          skipped := 1
          processed := 1
          cardResults := [(11, CardStatus.skipped, some "set ignore")] } := by
  have h := C6_circuit_breaker.1 { startingEbayCount := 0, dailyLimit := 5000 }
    { skippedSets := ["A"] } { id := 11, setId := "A", calls := 0, outcome := .success }
    rfl (by decide) (by decide)
  exact ⟨⟨rfl, by decide, by decide⟩, h⟩

/-- C7: the total confidence score is monotonically non-increasing in the
(non-null) dispersion and monotonically non-decreasing in the (non-null)
sample size, every other input held fixed. -/
theorem C7_monotone :
    ∀ (ss : Option ℕ) (dOther : Option ℚ) (hasCm : Bool) (src : AnchorSource)
      (prev cur : Option ℚ),
    (∀ d1 d2 : ℚ, d1 ≤ d2 →
      (confCalculate ss (some d2) hasCm src prev cur).total
        ≤ (confCalculate ss (some d1) hasCm src prev cur).total)
    ∧ (∀ s1 s2 : ℕ, s1 ≤ s2 →
      (confCalculate (some s1) dOther hasCm src prev cur).total
        ≤ (confCalculate (some s2) dOther hasCm src prev cur).total) := by
  intro ss dOther hasCm src prev cur
  constructor
  · intro d1 d2 h
    rw [confCalculate_total, confCalculate_total]
    have hd := scoreDispersion_anti d1 d2 h
    linarith
  · intro s1 s2 h
    rw [confCalculate_total, confCalculate_total]
    have hs := scoreSampleSize_mono s1 s2 h
    linarith

/-- Witness for C7: dispersion 1 versus 3 and sample size 1 versus 30 at a
fixed remaining input tuple. -/
theorem C7_witness :
    ((1 : ℚ) ≤ 3
      ∧ (confCalculate (some 5) (some 3) true AnchorSource.ebayActive none none).total
          ≤ (confCalculate (some 5) (some 1) true AnchorSource.ebayActive none none).total)
    ∧ ((1 : ℕ) ≤ 30
      ∧ (confCalculate (some 1) (some 2) true AnchorSource.ebayActive none none).total
          ≤ (confCalculate (some 30) (some 2) true AnchorSource.ebayActive none none).total) :=
  ⟨⟨by norm_num,
    (C7_monotone (some 5) (some 2) true AnchorSource.ebayActive none none).1 1 3 (by norm_num)⟩,
   ⟨by norm_num,
    (C7_monotone (some 5) (some 2) true AnchorSource.ebayActive none none).2 1 30 (by norm_num)⟩⟩

set_option maxRecDepth 8000 in
/-- C8 counterexample: the temporal statistics read the current clock, so the
Statistics Engine is not a pure function of the listing set alone: on the
same single listing (price 10, listed at time 0) and the same price list, a
run at time 0 reports pct_recent_7d = 100 while a run ten days later reports
pct_recent_7d = 0. -/
theorem C8_counterexample :
    (calcStats defaultEbayConfig [10] 1
        (some [{ title := "x", price := 10, listingDate := some 0 }]) 0).pctRecent7d
      ≠ (calcStats defaultEbayConfig [10] 1
        (some [{ title := "x", price := 10, listingDate := some 0 }]) 864000).pctRecent7d := by
  decide

/-- C8 amended: every field of PriceStats except the three temporal ones
(age_median_days, pct_recent_7d, pct_old_30d) is a pure, deterministic
function of the listing set: two runs on the same listings agree on all of
them whatever the two evaluation times are; the temporal fields additionally
depend on the clock and can differ between runs (see the counterexample). -/
theorem C8_amended :
    ∀ (cfg : EbayConfig) (prices : List ℚ) (rawCount : ℕ)
      (items : Option (List EbayItem)) (now1 now2 : ℤ),
    clearTemporal (calcStats cfg prices rawCount items now1)
      = clearTemporal (calcStats cfg prices rawCount items now2) := by
  intro cfg prices rawCount items now1 now2
  simp only [calcStats]
  split_ifs <;> try rfl
  rcases items with _ | its
  · rfl
  · by_cases h : its.isEmpty
    · simp [h]
    · simp [h, clearTemporal_calcTemporalStats]

/-- C9 counterexample: on the quota-exceeded (rate limit) signal the
collector does not return a CollectionResult: the signal propagates (here as
Except.error) to abort the surrounding run, so "collect_for_card never
propagates the exception, including any rate-limit error" is false. -/
theorem C9_counterexample :
    collectForCard defaultEbayConfig defaultFxRates
      { id := 7, effectiveQuery := some "pikachu 25/102" }
      (Except.error (EbayError.rateLimit "Erreur 429")) 0
    = Except.error () := rfl

/-- C9 amended: collect_for_card returns a CollectionResult on every outcome
except the quota-exceeded signal - and whenever that result is a failure its
error field is set; an ordinary search exception yields success = false with
error = the exception's message; the quota-exceeded signal alone propagates
out of collect_for_card (aborting the surrounding run). -/
theorem C9_amended :
    ∀ (cfg : EbayConfig) (fx : String → Option ℚ) (card : CardM)
      (outcome : Except EbayError EbaySearchResult) (now : ℤ),
    ((∀ msg, outcome ≠ Except.error (EbayError.rateLimit msg)) →
      ∃ r, collectForCard cfg fx card outcome now = Except.ok r
        ∧ (r.success = false → r.error ≠ none))
    ∧ (∀ e : EbayError, (∀ msg, e ≠ EbayError.rateLimit msg) →
        ∀ q, card.effectiveQuery = some q →
        ∃ r, collectForCard cfg fx card (Except.error e) now = Except.ok r
          ∧ r.success = false ∧ r.error = some e.message)
    ∧ (∀ msg q, card.effectiveQuery = some q →
        collectForCard cfg fx card (Except.error (EbayError.rateLimit msg)) now
          = Except.error ()) := by
  intro cfg fx card outcome now
  refine ⟨?_, ?_, ?_⟩
  · intro hrl
    rcases hq : card.effectiveQuery with _ | q
    · simp only [collectForCard, hq]
      exact ⟨_, rfl, by simp⟩
    · rcases outcome with e | sr
      · rcases e with msg | msg | msg
        · exact absurd rfl (hrl msg)
        · simp only [collectForCard, hq]
          exact ⟨_, rfl, by simp [EbayError.message]⟩
        · simp only [collectForCard, hq]
          exact ⟨_, rfl, by simp [EbayError.message]⟩
      · simp only [collectForCard, hq]
        exact ⟨_, rfl, collectFromSearch_failed_has_error cfg fx card _ sr now⟩
  · intro e he q hq
    rcases e with msg | msg | msg
    · exact absurd rfl (he msg)
    · simp only [collectForCard, hq]
      exact ⟨_, rfl, rfl, rfl⟩
    · simp only [collectForCard, hq]
      exact ⟨_, rfl, rfl, rfl⟩
  · intro msg q hq
    simp [collectForCard, hq]

/-- Witness for C9: a concrete ordinary API error is caught and returned as a
failed CollectionResult carrying the exception message. -/
theorem C9_witness :
    ∃ r, collectForCard defaultEbayConfig defaultFxRates
          { id := 7, effectiveQuery := some "pikachu" }
          (Except.error (EbayError.apiError "Search failed: 500")) 0 = Except.ok r
        ∧ r.success = false
        ∧ r.error = some (EbayError.apiError "Search failed: 500").message :=
  (C9_amended defaultEbayConfig defaultFxRates { id := 7, effectiveQuery := some "pikachu" }
    (Except.error (EbayError.apiError "Search failed: 500")) 0).2.1
    (EbayError.apiError "Search failed: 500") (fun _ h => EbayError.noConfusion h)
    "pikachu" rfl

/-- C10: price normalization uses each listing's base price only: however the
shipping costs of the listings are modified, the normalized EUR price list is
unchanged, and with it the whole computed PriceStats and the p20 anchor
derived from it. -/
theorem C10_shipping_independent :
    ∀ (cfg : EbayConfig) (fx : String → Option ℚ) (f : EbayItem → Option ℚ)
      (items : List EbayItem) (now : ℤ),
    normalizePrices fx (items.map (setShipping f)) = normalizePrices fx items
    ∧ calcStats cfg (normalizePrices fx (items.map (setShipping f)))
        (items.map (setShipping f)).length (some (items.map (setShipping f))) now
      = calcStats cfg (normalizePrices fx items) items.length (some items) now
    ∧ (calcStats cfg (normalizePrices fx (items.map (setShipping f)))
        (items.map (setShipping f)).length (some (items.map (setShipping f))) now).p20
      = (calcStats cfg (normalizePrices fx items) items.length (some items) now).p20 := by
  intro cfg fx f items now
  have h1 := normalizePrices_setShipping fx f items
  have h2 : calcStats cfg (normalizePrices fx (items.map (setShipping f)))
      (items.map (setShipping f)).length (some (items.map (setShipping f))) now
      = calcStats cfg (normalizePrices fx items) items.length (some items) now := by
    rw [h1, List.length_map]
    refine calcStats_items_congr cfg _ items.length _ items now ?_ ?_
    · cases items <;> rfl
    · exact agesOf_setShipping f items now
  exact ⟨h1, h2, by rw [h2]⟩

end
